import Mathlib

/-!
Verification development for the Data-Analytics tax dashboard.

The repository ships a tax-computation and aggregation core (per its
specification) together with three browser front ends.  The front-end
JavaScript (records table: pagination, filtering, sorting, refund
colouring) is embedded directly from the sources.  The core engine
(per-record tax computer, synthesizer, statistics primitive, aggregation
engine) is not present in the source tree, only its specification and its
front-end consumers are; those parts are modelled from the specification,
and every such definition is marked `Modelled from the spec:` in its doc
comment.  All money amounts are exact rationals.
-/

namespace TaxLens

/-! ## Tax-law tables (modelled from the spec) -/

/-- Modelled from the spec: a bracket is a (lower_bound, rate) pair of one
slice of a progressive schedule (the bracket tables live in the absent
`tax_data_generator.py`). -/
structure Bracket where
  lower : ℚ
  rate : ℚ
deriving Repr, DecidableEq, Inhabited

/-- Modelled from the spec: the three recognised filing statuses. -/
inductive FilingStatus where
  | single
  | married
  | headOfHousehold
deriving Repr, DecidableEq, Inhabited

/-- Modelled from the spec: a state taxes income either at a flat rate or
through its own bracket table. -/
inductive StateRate where
  | flat (r : ℚ)
  | bracketed (bs : List Bracket)
deriving Repr, DecidableEq, Inhabited

/-- Modelled from the spec: FICA constants. -/
structure FicaParams where
  ssRate : ℚ
  ssWageBase : ℚ
  medicareRate : ℚ
  addlMedicareRate : ℚ
  addlMedicareThreshold : ℚ
deriving Repr, DecidableEq, Inhabited

/-- Modelled from the spec: the frozen law table — brackets and standard
deduction per filing status, the SALT cap, FICA constants, per-state rates
and the dependent-credit constants. -/
structure TaxLawTable where
  singleBrackets : List Bracket
  marriedBrackets : List Bracket
  hohBrackets : List Bracket
  singleStd : ℚ
  marriedStd : ℚ
  hohStd : ℚ
  saltCap : ℚ
  fica : FicaParams
  stateRates : List (String × StateRate)
  creditPerDependent : ℚ
  creditCap : ℚ
deriving Repr, DecidableEq, Inhabited

/-- Bracket table for a filing status. -/
def bracketsFor (tbl : TaxLawTable) : FilingStatus → List Bracket
  | .single => tbl.singleBrackets
  | .married => tbl.marriedBrackets
  | .headOfHousehold => tbl.hohBrackets

/-- Standard deduction for a filing status. -/
def stdFor (tbl : TaxLawTable) : FilingStatus → ℚ
  | .single => tbl.singleStd
  | .married => tbl.marriedStd
  | .headOfHousehold => tbl.hohStd

/-- Modelled from the spec: a well-formed bracket list — nonempty, first
lower bound 0, lower bounds strictly ascending, rates nonnegative and
non-decreasing (a malformed table is a ConfigurationError and the engine
refuses to compute). -/
def WFBrackets (bs : List Bracket) : Prop :=
  bs ≠ [] ∧ (bs.headD default).lower = 0 ∧
    bs.Chain' (fun a b => a.lower < b.lower) ∧
    bs.Chain' (fun a b => a.rate ≤ b.rate) ∧
    ∀ b ∈ bs, 0 ≤ b.rate

/-- Modelled from the spec: well-formedness of one state-rate entry. -/
def WFState : StateRate → Prop
  | .flat r => 0 ≤ r
  | .bracketed bs => WFBrackets bs

/-- Modelled from the spec: a well-formed law table, checked at startup. -/
def WFT (tbl : TaxLawTable) : Prop :=
  WFBrackets tbl.singleBrackets ∧ WFBrackets tbl.marriedBrackets ∧
    WFBrackets tbl.hohBrackets ∧
    0 ≤ tbl.singleStd ∧ 0 ≤ tbl.marriedStd ∧ 0 ≤ tbl.hohStd ∧
    0 ≤ tbl.saltCap ∧
    0 ≤ tbl.fica.ssRate ∧ 0 ≤ tbl.fica.ssWageBase ∧
    0 ≤ tbl.fica.medicareRate ∧ 0 ≤ tbl.fica.addlMedicareRate ∧
    0 ≤ tbl.fica.addlMedicareThreshold ∧
    (∀ e ∈ tbl.stateRates, WFState e.2) ∧
    0 ≤ tbl.creditPerDependent ∧ 0 ≤ tbl.creditCap ∧
    tbl.stateRates ≠ []

/-! ## Bracket slice-integration (modelled from the spec) -/

/-- Modelled from the spec: slice-integrate a bracket table — each bracket
taxes the portion of taxable income between its own lower bound and the
next bracket's lower bound (the last bracket is unbounded above). -/
def federalTaxAux : List Bracket → ℚ → ℚ
  | [], _ => 0
  | [b], ti => b.rate * max 0 (ti - b.lower)
  | b :: b2 :: rest, ti =>
      b.rate * max 0 (min ti b2.lower - b.lower) + federalTaxAux (b2 :: rest) ti

/-- Upper bound of the slice belonging to bracket `i`: the next bracket's
lower bound, or the taxable income itself for the top bracket. -/
def sliceUpper (bs : List Bracket) (ti : ℚ) (i : ℕ) : ℚ :=
  match bs[i+1]? with
  | some b => b.lower
  | none => ti

/-- The tax collected by the single bracket `i`: its rate times the portion
of taxable income falling in `[lower_i, lower_(i+1))`, clipped at 0. -/
def slice (bs : List Bracket) (ti : ℚ) (i : ℕ) : ℚ :=
  match bs[i]? with
  | none => 0
  | some b => b.rate * max 0 (min ti (sliceUpper bs ti i) - b.lower)

/-- Sum of the per-bracket slices, indexed form of the slice-integration. -/
def sliceSum (bs : List Bracket) (ti : ℚ) : ℚ :=
  ((List.range bs.length).map (slice bs ti)).sum

/-- Modelled from the spec: the marginal rate is the rate of the highest
bracket touched by the taxable income. -/
def marginalRate : List Bracket → ℚ → ℚ
  | [], _ => 0
  | [b], _ => b.rate
  | b :: b2 :: rest, ti =>
      if ti < b2.lower then b.rate else marginalRate (b2 :: rest) ti

theorem federalTaxAux_eq_sliceSum (bs : List Bracket) (ti : ℚ) :
    federalTaxAux bs ti = sliceSum bs ti := by
  induction bs with
  | nil => simp [federalTaxAux, sliceSum]
  | cons b rest ih =>
    have hshift : ∀ i : ℕ, slice (b :: rest) ti (i + 1) = slice rest ti i := by
      intro i
      simp [slice, sliceUpper]
    have hsum : sliceSum (b :: rest) ti = slice (b :: rest) ti 0 + sliceSum rest ti := by
      simp only [sliceSum]
      rw [List.length_cons, List.range_succ_eq_map, List.map_cons, List.sum_cons,
        List.map_map]
      congr 1
      apply congrArg List.sum
      apply List.map_congr_left
      intro i _
      simpa using hshift i
    rw [hsum]
    cases rest with
    | nil => simp [federalTaxAux, sliceSum, slice, sliceUpper]
    | cons b2 rest2 =>
      rw [federalTaxAux, ih]
      congr 1
      simp [slice, sliceUpper]

/-! ## Records and the per-record tax computer (modelled from the spec) -/

/-- Modelled from the spec: a raw taxpayer record — filing status, state,
dependents, five income components, four itemizable expense components and
the externally supplied estimated withholding. -/
structure RawRecord where
  filingStatus : FilingStatus
  state : String
  dependents : ℕ
  wages : ℚ
  selfEmployment : ℚ
  investment : ℚ
  rental : ℚ
  retirement : ℚ
  mortgageInterest : ℚ
  charitable : ℚ
  medical : ℚ
  salt : ℚ
  withholding : ℚ
deriving Repr, DecidableEq, Inhabited

/-- Modelled from the spec: a computed record — the raw record plus all
derived fields. -/
structure CRec where
  raw : RawRecord
  totalIncome : ℚ
  dedUsed : ℚ
  usesItemized : Bool
  taxableIncome : ℚ
  federalTax : ℚ
  stateTax : ℚ
  socialSecurity : ℚ
  medicare : ℚ
  ficaTotal : ℚ
  credits : ℚ
  totalTaxLiability : ℚ
  effectiveRate : ℚ
  marginalTaxRate : ℚ
  refundOrOwed : ℚ
deriving Repr, DecidableEq, Inhabited

/-- Modelled from the spec: total income is the sum of the five income
components. -/
def totalIncomeOf (r : RawRecord) : ℚ :=
  r.wages + r.selfEmployment + r.investment + r.rental + r.retirement

/-- Modelled from the spec: itemized total is the sum of the four
itemizable components with the SALT component first clipped to the cap. -/
def itemizedTotalOf (tbl : TaxLawTable) (r : RawRecord) : ℚ :=
  r.mortgageInterest + r.charitable + r.medical + min r.salt tbl.saltCap

/-- Modelled from the spec: Social Security tax — earnings capped at the
wage base, then taxed at the SS rate. -/
def ssTax (f : FicaParams) (earnings : ℚ) : ℚ :=
  min earnings f.ssWageBase * f.ssRate

/-- Modelled from the spec: Medicare tax — flat rate on all earnings plus
the additional-Medicare surtax on the excess over the threshold. -/
def medicareTax (f : FicaParams) (earnings : ℚ) : ℚ :=
  earnings * f.medicareRate +
    max 0 (earnings - f.addlMedicareThreshold) * f.addlMedicareRate

/-- Modelled from the spec: state tax — flat states multiply taxable
income by the rate, bracketed states reuse the slice-integration. -/
def stateTaxOf : StateRate → ℚ → ℚ
  | .flat r, ti => ti * r
  | .bracketed bs, ti => federalTaxAux bs ti

/-- Look up a state's rate description in the table. -/
def stateRateFor (tbl : TaxLawTable) (st : String) : Option StateRate :=
  (tbl.stateRates.find? (fun e => e.1 == st)).map (·.2)

/-- Modelled from the spec: the total per-record computation, assuming the
record already validated.  Every derived field of `ComputedTaxpayerRecord`
is produced here, synchronously. -/
def computeCore (tbl : TaxLawTable) (r : RawRecord) : CRec :=
  let ti0 := totalIncomeOf r
  let itz := itemizedTotalOf tbl r
  let std := stdFor tbl r.filingStatus
  let ded := max itz std
  let taxable := max 0 (ti0 - ded)
  let brackets := bracketsFor tbl r.filingStatus
  let fed := federalTaxAux brackets taxable
  let st := ((stateRateFor tbl r.state).map (fun sr => stateTaxOf sr taxable)).getD 0
  let earnings := r.wages + r.selfEmployment
  let ss := ssTax tbl.fica earnings
  let med := medicareTax tbl.fica earnings
  let fica := ss + med
  let cred := min (r.dependents * tbl.creditPerDependent) tbl.creditCap
  let liab := max 0 (fed + st + fica - cred)
  { raw := r
    totalIncome := ti0
    dedUsed := ded
    usesItemized := decide (std < itz)
    taxableIncome := taxable
    federalTax := fed
    stateTax := st
    socialSecurity := ss
    medicare := med
    ficaTotal := fica
    credits := cred
    totalTaxLiability := liab
    effectiveRate := if 0 < ti0 then liab / ti0 else 0
    marginalTaxRate := marginalRate brackets taxable
    refundOrOwed := r.withholding - liab }

/-- Modelled from the spec: validation — every monetary component must be
nonnegative and the state must be recognised (filing status is already an
enumeration); a violation is a ValidationError. -/
def validRecord (tbl : TaxLawTable) (r : RawRecord) : Bool :=
  decide (0 ≤ r.wages) && decide (0 ≤ r.selfEmployment) &&
    decide (0 ≤ r.investment) && decide (0 ≤ r.rental) &&
    decide (0 ≤ r.retirement) && decide (0 ≤ r.mortgageInterest) &&
    decide (0 ≤ r.charitable) && decide (0 ≤ r.medical) &&
    decide (0 ≤ r.salt) && (stateRateFor tbl r.state).isSome

/-- Modelled from the spec: `compute(record, tables)` — fails with a
ValidationError (here `none`) on a malformed record, otherwise total. -/
def compute (tbl : TaxLawTable) (r : RawRecord) : Option CRec :=
  if validRecord tbl r then some (computeCore tbl r) else none

/-- Rate of the highest bracket touched, read off declaratively: the rate
of the last bracket whose lower bound does not exceed the taxable income. -/
def lastTouchedRate (bs : List Bracket) (ti : ℚ) : ℚ :=
  (((bs.filter (fun b => decide (b.lower ≤ ti))).getLast?).map Bracket.rate).getD 0

theorem marginalRate_eq_lastTouched :
    ∀ (bs : List Bracket) (ti : ℚ), bs.Chain' (fun a b => a.lower < b.lower) →
      bs ≠ [] → (bs.headD default).lower ≤ ti →
      marginalRate bs ti = lastTouchedRate bs ti := by
  intro bs
  induction bs with
  | nil => intro ti _ hne _; exact absurd rfl hne
  | cons b rest ih =>
    intro ti hchain _ hhead
    cases rest with
    | nil =>
      simp only [List.headD_cons] at hhead
      simp [marginalRate, lastTouchedRate, List.filter, hhead]
    | cons b2 rest2 =>
      simp only [List.headD_cons] at hhead
      haveI : IsTrans Bracket (fun a b => a.lower < b.lower) :=
        ⟨fun _ _ _ h1 h2 => lt_trans h1 h2⟩
      by_cases hlt : ti < b2.lower
      · have hpw := List.chain'_iff_pairwise.mp hchain
        have hrest : ∀ c ∈ b2 :: rest2, ¬ (c.lower ≤ ti) := by
          intro c hc
          have hb2c : b2.lower ≤ c.lower := by
            rcases List.mem_cons.mp hc with hceq | hc2
            · simp [hceq]
            · exact le_of_lt
                ((List.pairwise_cons.mp (List.pairwise_cons.mp hpw).2).1 c hc2)
          exact fun hle => absurd (lt_of_le_of_lt (hb2c.trans hle) hlt) (lt_irrefl _)
        have hfilter : (b2 :: rest2).filter (fun c => decide (c.lower ≤ ti)) = [] := by
          rw [List.filter_eq_nil_iff]
          intro c hc
          simpa using hrest c hc
        simp [marginalRate, hlt, lastTouchedRate, List.filter_cons, hhead, hfilter]
      · push_neg at hlt
        have htail := ih ti hchain.tail (by simp) (by simpa using hlt)
        rw [marginalRate, if_neg (not_lt.mpr hlt), htail]
        simp only [lastTouchedRate, List.filter_cons, decide_eq_true_eq, if_pos hhead,
          if_pos hlt, List.getLast?_cons_cons]

/-! ## A concrete 2024-style law table and records

The exact policy constants are open in the spec; the bracket triple for a
single filer and the FICA example constants are the ones given there, the
rest are representative values used only to exercise the engine. -/

/-- Concrete law table with the single-filer brackets and FICA constants
from the spec examples. -/
def T0 : TaxLawTable where
  singleBrackets := [⟨0, 1/10⟩, ⟨11000, 3/25⟩, ⟨44725, 11/50⟩]
  marriedBrackets := [⟨0, 1/10⟩, ⟨22000, 3/25⟩]
  hohBrackets := [⟨0, 1/10⟩, ⟨15700, 3/25⟩]
  singleStd := 14600
  marriedStd := 29200
  hohStd := 21900
  saltCap := 10000
  fica := ⟨31/500, 168600, 29/2000, 9/1000, 200000⟩
  stateRates := [("CA", .flat (93/1000)), ("TX", .flat 0),
    ("NY", .bracketed [⟨0, 1/25⟩, ⟨8500, 9/200⟩])]
  creditPerDependent := 2000
  creditCap := 6000

theorem wfT0 : WFT T0 := by
  refine ⟨?_, ?_, ?_, ?_, ?_, ?_, ?_, ?_, ?_, ?_, ?_, ?_, ?_, ?_, ?_, ?_⟩ <;>
    simp [WFBrackets, WFState, T0] <;> norm_num

/-- A single TX filer with wages 64600 and no other components: the
standard deduction 14600 leaves exactly the taxable income 50000 of the
bracket-integration example. -/
def r0 : RawRecord where
  filingStatus := .single
  state := "TX"
  dependents := 0
  wages := 64600
  selfEmployment := 0
  investment := 0
  rental := 0
  retirement := 0
  mortgageInterest := 0
  charitable := 0
  medical := 0
  salt := 0
  withholding := 5000

/-- A filer whose itemized total exactly ties the standard deduction. -/
def rTie : RawRecord where
  filingStatus := .single
  state := "TX"
  dependents := 0
  wages := 30000
  selfEmployment := 0
  investment := 0
  rental := 0
  retirement := 0
  mortgageInterest := 14600
  charitable := 0
  medical := 0
  salt := 0
  withholding := 0

/-- A filer with zero income everywhere. -/
def rZero : RawRecord where
  filingStatus := .single
  state := "TX"
  dependents := 0
  wages := 0
  selfEmployment := 0
  investment := 0
  rental := 0
  retirement := 0
  mortgageInterest := 0
  charitable := 0
  medical := 0
  salt := 0
  withholding := 0

theorem compute_eq_some (tbl : TaxLawTable) (r : RawRecord)
    (h : validRecord tbl r = true) : compute tbl r = some (computeCore tbl r) := by
  simp [compute, h]

theorem valid_T0_r0 : validRecord T0 r0 = true := by
  simp [validRecord, r0, T0, stateRateFor]

theorem valid_T0_rTie : validRecord T0 rTie = true := by
  simp [validRecord, rTie, T0, stateRateFor]

theorem valid_T0_rZero : validRecord T0 rZero = true := by
  simp [validRecord, rZero, T0, stateRateFor]

/-! ## Statistics primitive (modelled from the spec) -/

/-- The statistics object produced by the statistics primitive. -/
structure StatsQ where
  count : ℕ
  mean : ℚ
  median : ℚ
  vmin : ℚ
  vmax : ℚ
  total : ℚ
deriving Repr, DecidableEq, Inhabited

/-- The all-zero statistics object. -/
def zeroStats : StatsQ := ⟨0, 0, 0, 0, 0, 0⟩

/-- Modelled from the spec: `summarize(values)` — count, mean, median
(average of the two middle values for even counts), min, max and total;
the empty input returns zeroed fields and never raises. -/
def summarize (vs : List ℚ) : StatsQ :=
  match vs with
  | [] => zeroStats
  | v :: rest =>
      let n := rest.length + 1
      let tot := v + rest.sum
      let sorted := List.insertionSort (· ≤ ·) (v :: rest)
      let med :=
        if n % 2 = 1 then sorted.getD (n / 2) 0
        else (sorted.getD (n / 2 - 1) 0 + sorted.getD (n / 2) 0) / 2
      ⟨n, tot / n, med, rest.foldl min v, rest.foldl max v, tot⟩

/-! ## Aggregation engine (modelled from the spec) -/

/-- Division with an explicit empty-group guard. -/
def safeDiv (x : ℚ) (n : ℕ) : ℚ := if n = 0 then 0 else x / n

/-- Percentage of a subpopulation, guarded against an empty population. -/
def pct100 (part total : ℕ) : ℚ := if total = 0 then 0 else (part * 100 : ℚ) / total

/-- Modelled from the spec: the summary group — population totals and
averages per tax type. -/
structure SummaryGroup where
  total_taxpayers : ℕ
  total_income_reported : ℚ
  avg_income : ℚ
  total_federal_tax : ℚ
  total_state_tax : ℚ
  total_fica : ℚ
  total_tax_collected : ℚ
  avg_total_tax : ℚ
  overall_effective_rate : ℚ
  total_refunds_issued : ℚ
  total_tax_owed : ℚ
deriving Repr, DecidableEq, Inhabited

/-- Modelled from the spec: fixed labels of the taxable-income buckets
(the exact ranges are open in the spec; these are model choices). -/
def INCOME_BUCKET_LABELS : List String :=
  ["under $25k", "$25k-50k", "$50k-100k", "$100k-200k", "over $200k"]

/-- Bucket a taxable income into the fixed labeled ranges. -/
def incomeBucket (ti : ℚ) : String :=
  if ti < 25000 then "under $25k"
  else if ti < 50000 then "$25k-50k"
  else if ti < 100000 then "$50k-100k"
  else if ti < 200000 then "$100k-200k"
  else "over $200k"

/-- Modelled from the spec: the income group. -/
structure IncomeGroup where
  bracket_distribution : List (String × ℕ × ℚ)
  by_income_source : List (String × StatsQ)
  overall_stats : StatsQ
deriving Repr, DecidableEq, Inhabited

/-- One by-filing-status entry of the tax-rates group. -/
structure FSEntry where
  count : ℕ
  avg_effective : ℚ
  avg_federal_tax : ℚ
deriving Repr, DecidableEq, Inhabited

/-- Modelled from the spec: the tax-rates group. -/
structure TaxRatesGroup where
  marginal_distribution : List (String × ℕ)
  by_filing_status : List (String × FSEntry)
  effective_rate_stats : StatsQ
deriving Repr, DecidableEq, Inhabited

/-- Modelled from the spec: the deductions group. -/
structure DeductionsGroup where
  itemizer_count : ℕ
  standard_filer_count : ℕ
  itemizer_pct : ℚ
  avg_itemized_total : ℚ
  avg_standard_deduction : ℚ
  avg_tax_savings_itemize : ℚ
  category_breakdown : List (String × StatsQ)
deriving Repr, DecidableEq, Inhabited

/-- Modelled from the spec: the refunds group. -/
structure RefundsGroup where
  refund_count : ℕ
  owed_count : ℕ
  over_withheld_pct : ℚ
  refund_stats : StatsQ
  owed_stats : StatsQ
  bucket_distribution : List (String × ℕ)
deriving Repr, DecidableEq, Inhabited

/-- One per-state entry of the by-state group. -/
structure StateEntry where
  count : ℕ
  avg_income : ℚ
  avg_federal_tax : ℚ
  avg_state_tax : ℚ
  avg_total_tax : ℚ
  avg_effective_rate : ℚ
  total_state_revenue : ℚ
deriving Repr, DecidableEq, Inhabited

/-- Modelled from the spec: the capital-gains group. -/
structure CapitalGainsGroup where
  cg_filer_count : ℕ
  cg_filer_pct : ℚ
  capital_gains_stats : StatsQ
  dividend_income_stats : StatsQ
  avg_cg_pct_of_income : ℚ
deriving Repr, DecidableEq, Inhabited

/-- Modelled from the spec: the credits-and-dependents group. -/
structure CreditsGroup where
  avg_credit : ℚ
  total_credits_claimed : ℚ
  credit_stats : StatsQ
  dependent_distribution : List (ℕ × ℕ)
  avg_tax_by_dependents : List (ℕ × ℚ)
deriving Repr, DecidableEq, Inhabited

/-- Modelled from the spec: the FICA group. -/
structure FicaGroup where
  total_fica_collected : ℚ
  avg_fica_pct_of_income : ℚ
  social_security_stats : StatsQ
  medicare_stats : StatsQ
deriving Repr, DecidableEq, Inhabited

/-- Modelled from the spec: the full analysis summary — its nine fixed
groups are structure fields, so every group key is present by
construction. -/
structure AnalysisSummary where
  summary : SummaryGroup
  income : IncomeGroup
  tax_rates : TaxRatesGroup
  deductions : DeductionsGroup
  refunds : RefundsGroup
  by_state : List (String × StateEntry)
  capital_gains : CapitalGainsGroup
  credits_dependents : CreditsGroup
  fica : FicaGroup
deriving Repr, DecidableEq, Inhabited

/-- Modelled from the spec: the seven fixed refund buckets, from
"owe > $5k" to "refund > $5k" (interior owe boundaries are model
choices; the refund side is pinned by the spec example). -/
def REFUND_BUCKET_LABELS : List String :=
  ["owe > $5k", "owe $3k-5k", "owe $2k-3k", "owe $1k-2k", "owe $0-1k",
   "refund $0-5k", "refund > $5k"]

/-- Modelled from the spec: assign a signed refund-or-owed amount to its
bucket; the upper bound of each non-top bucket is exclusive, and the top
bucket takes strictly more than 5000, so exactly 5000 stays below it. -/
def refundBucket (v : ℚ) : String :=
  if v < -5000 then "owe > $5k"
  else if v < -3000 then "owe $3k-5k"
  else if v < -2000 then "owe $2k-3k"
  else if v < -1000 then "owe $1k-2k"
  else if v < 0 then "owe $0-1k"
  else if v ≤ 5000 then "refund $0-5k"
  else "refund > $5k"

/-- Embedded from `src/unnamed/part_000` (renderRecordPage body): the
refund column colours a cell green exactly when the value is at least 0. -/
def refundColorClass (v : ℚ) : String := if 0 ≤ v then "gr" else "rd"

/-- Recompute the total liability of a raw record under a given deduction
amount (used by the itemize-savings average of spec section 4.4). -/
def liabilityGivenDed (tbl : TaxLawTable) (r : RawRecord) (ded : ℚ) : ℚ :=
  let taxable := max 0 (totalIncomeOf r - ded)
  let fed := federalTaxAux (bracketsFor tbl r.filingStatus) taxable
  let st := ((stateRateFor tbl r.state).map (fun sr => stateTaxOf sr taxable)).getD 0
  let fica := ssTax tbl.fica (r.wages + r.selfEmployment) +
    medicareTax tbl.fica (r.wages + r.selfEmployment)
  max 0 (fed + st + fica - min (r.dependents * tbl.creditPerDependent) tbl.creditCap)

/-- The five income components as labelled accessors. -/
def incomeSources : List (String × (RawRecord → ℚ)) :=
  [("wages", RawRecord.wages), ("self_employment", RawRecord.selfEmployment),
   ("investment", RawRecord.investment), ("rental", RawRecord.rental),
   ("retirement", RawRecord.retirement)]

/-- The four itemizable expense categories as labelled accessors. -/
def expenseCategories : List (String × (RawRecord → ℚ)) :=
  [("mortgage_interest", RawRecord.mortgageInterest),
   ("charitable", RawRecord.charitable),
   ("medical", RawRecord.medical), ("salt", RawRecord.salt)]

/-- The three filing statuses as labelled values. -/
def statusLabels : List (String × FilingStatus) :=
  [("single", .single), ("married", .married),
   ("head_of_household", .headOfHousehold)]

/-- Modelled from the spec: `analyze(population, tables)` — deterministic,
side-effect-free, fully re-derived from the population snapshot; every
dimension with no matching records carries zeroed stats. -/
def analyze (tbl : TaxLawTable) (pop : List CRec) : AnalysisSummary :=
  let n := pop.length
  let totalIncome := (pop.map (·.totalIncome)).sum
  let totalTax := (pop.map (·.totalTaxLiability)).sum
  let refunds := pop.filter (fun c => decide (0 ≤ c.refundOrOwed))
  let owed := pop.filter (fun c => decide (c.refundOrOwed < 0))
  let itemizers := pop.filter (·.usesItemized)
  let cgFilers := pop.filter (fun c => decide (0 < c.raw.investment))
  { summary :=
      { total_taxpayers := n
        total_income_reported := totalIncome
        avg_income := safeDiv totalIncome n
        total_federal_tax := (pop.map (·.federalTax)).sum
        total_state_tax := (pop.map (·.stateTax)).sum
        total_fica := (pop.map (·.ficaTotal)).sum
        total_tax_collected := totalTax
        avg_total_tax := safeDiv totalTax n
        overall_effective_rate := if 0 < totalIncome then totalTax / totalIncome else 0
        total_refunds_issued := (refunds.map (·.refundOrOwed)).sum
        total_tax_owed := (owed.map (fun c => -c.refundOrOwed)).sum }
    income :=
      { bracket_distribution := INCOME_BUCKET_LABELS.map (fun l =>
          let cnt := pop.countP (fun c => incomeBucket c.taxableIncome == l)
          (l, cnt, pct100 cnt n))
        by_income_source := incomeSources.map (fun s =>
          (s.1, summarize ((pop.filter (fun c => decide (0 < s.2 c.raw))).map
            (fun c => s.2 c.raw))))
        overall_stats := summarize (pop.map (·.totalIncome)) }
    tax_rates :=
      { marginal_distribution :=
          ((tbl.singleBrackets ++ tbl.marriedBrackets ++ tbl.hohBrackets).map
            (·.rate)).map (fun rt =>
            (toString rt.num ++ "/" ++ toString rt.den,
             pop.countP (fun c => c.marginalTaxRate == rt)))
        by_filing_status := statusLabels.map (fun s =>
          let grp := pop.filter (fun c => c.raw.filingStatus == s.2)
          (s.1, { count := grp.length
                  avg_effective := safeDiv ((grp.map (·.effectiveRate)).sum) grp.length
                  avg_federal_tax := safeDiv ((grp.map (·.federalTax)).sum) grp.length }))
        effective_rate_stats := summarize (pop.map (·.effectiveRate)) }
    deductions :=
      { itemizer_count := itemizers.length
        standard_filer_count := n - itemizers.length
        itemizer_pct := pct100 itemizers.length n
        avg_itemized_total :=
          safeDiv ((itemizers.map (fun c => itemizedTotalOf tbl c.raw)).sum)
            itemizers.length
        avg_standard_deduction :=
          safeDiv (((pop.filter (fun c => !c.usesItemized)).map
            (fun c => stdFor tbl c.raw.filingStatus)).sum) (n - itemizers.length)
        avg_tax_savings_itemize :=
          safeDiv ((itemizers.map (fun c =>
            liabilityGivenDed tbl c.raw (stdFor tbl c.raw.filingStatus) -
              liabilityGivenDed tbl c.raw (itemizedTotalOf tbl c.raw))).sum)
            itemizers.length
        category_breakdown := expenseCategories.map (fun s =>
          (s.1, summarize ((itemizers.filter (fun c => decide (0 < s.2 c.raw))).map
            (fun c => s.2 c.raw)))) }
    refunds :=
      { refund_count := refunds.length
        owed_count := owed.length
        over_withheld_pct := pct100 refunds.length n
        refund_stats := summarize (refunds.map (·.refundOrOwed))
        owed_stats := summarize (owed.map (fun c => -c.refundOrOwed))
        bucket_distribution := REFUND_BUCKET_LABELS.map (fun l =>
          (l, pop.countP (fun c => refundBucket c.refundOrOwed == l))) }
    by_state := tbl.stateRates.map (fun e =>
      let grp := pop.filter (fun c => c.raw.state == e.1)
      (e.1, { count := grp.length
              avg_income := safeDiv ((grp.map (·.totalIncome)).sum) grp.length
              avg_federal_tax := safeDiv ((grp.map (·.federalTax)).sum) grp.length
              avg_state_tax := safeDiv ((grp.map (·.stateTax)).sum) grp.length
              avg_total_tax := safeDiv ((grp.map (·.totalTaxLiability)).sum) grp.length
              avg_effective_rate := safeDiv ((grp.map (·.effectiveRate)).sum) grp.length
              total_state_revenue := (grp.map (·.stateTax)).sum }))
    capital_gains :=
      { cg_filer_count := cgFilers.length
        cg_filer_pct := pct100 cgFilers.length n
        capital_gains_stats := summarize (cgFilers.map (·.raw.investment))
        dividend_income_stats := summarize (cgFilers.map (·.raw.investment))
        avg_cg_pct_of_income :=
          safeDiv ((cgFilers.map (fun c =>
            if 0 < c.totalIncome then c.raw.investment * 100 / c.totalIncome else 0)).sum)
            cgFilers.length }
    credits_dependents :=
      { avg_credit := safeDiv ((pop.map (·.credits)).sum) n
        total_credits_claimed := (pop.map (·.credits)).sum
        credit_stats := summarize (pop.map (·.credits))
        dependent_distribution := (List.range 6).map (fun d =>
          (d, pop.countP (fun c => c.raw.dependents == d)))
        avg_tax_by_dependents := (List.range 6).map (fun d =>
          let grp := pop.filter (fun c => c.raw.dependents == d)
          (d, safeDiv ((grp.map (·.totalTaxLiability)).sum) grp.length)) }
    fica :=
      { total_fica_collected := (pop.map (·.ficaTotal)).sum
        avg_fica_pct_of_income :=
          safeDiv ((pop.map (fun c =>
            if 0 < c.totalIncome then c.ficaTotal * 100 / c.totalIncome else 0)).sum) n
        social_security_stats := summarize (pop.map (·.socialSecurity))
        medicare_stats := summarize (pop.map (·.medicare)) } }

/-! ## Record synthesizer (modelled from the spec) -/

/-- Modelled from the spec: the seeded pseudo-random source — here a
31-bit linear congruential generator with an explicit modulus (the spec
fixes no particular generator, only that it is seeded and deterministic). -/
def lcgNext (s : ℕ) : ℕ := (1103515245 * s + 12345) % 2 ^ 31

/-- Derive the initial generator state from the seed alone. -/
def seedInit (seed : ℕ) : ℕ := (seed + 987654321) % 2 ^ 31

/-- One draw: advance the state and produce a value below `n`. -/
def draw (s n : ℕ) : ℕ × ℕ := let s2 := lcgNext s; (s2, s2 % n)

/-- Modelled from the spec: synthesize one raw record from the generator
state — weighted status and state draws, income draws with sparse nonzero
side components, expense draws and a small dependents count (the precise
draw shapes are open in the spec; these are stylized stand-ins). -/
def rawGen (tbl : TaxLawTable) (s0 : ℕ) : ℕ × RawRecord :=
  let (s1, d1) := draw s0 3
  let status := if d1 = 0 then FilingStatus.single
    else if d1 = 1 then FilingStatus.married else FilingStatus.headOfHousehold
  let (s2, d2) := draw s1 (max tbl.stateRates.length 1)
  let state := (tbl.stateRates.getD d2 ("", .flat 0)).1
  let (s3, w) := draw s2 180001
  let (s4, seRaw) := draw s3 60001
  let (s5, inv) := draw s4 40001
  let (s6, ren) := draw s5 30001
  let (s7, ret) := draw s6 30001
  let (s8, mi) := draw s7 20001
  let (s9, ch) := draw s8 8001
  let (s10, md) := draw s9 6001
  let (s11, sa) := draw s10 15001
  let (s12, dep) := draw s11 4
  (s12,
   { filingStatus := status
     state := state
     dependents := dep
     wages := (w : ℚ)
     selfEmployment := if seRaw % 4 = 0 then (seRaw : ℚ) else 0
     investment := if inv % 3 = 0 then (inv : ℚ) else 0
     rental := if ren % 5 = 0 then (ren : ℚ) else 0
     retirement := if ret % 4 = 0 then (ret : ℚ) else 0
     mortgageInterest := (mi : ℚ)
     charitable := (ch : ℚ)
     medical := (md : ℚ)
     salt := (sa : ℚ)
     withholding := 0 })

/-- Modelled from the spec: synthesize one finished record — draw the raw
record, set the estimated withholding deliberately offset from the true
liability, and pass it through the tax computer. -/
def genOne (tbl : TaxLawTable) (s0 : ℕ) : ℕ × CRec :=
  let (s1, raw0) := rawGen tbl s0
  let liab := (computeCore tbl raw0).totalTaxLiability
  let (s2, noise) := draw s1 12001
  let raw := { raw0 with withholding := liab + (noise : ℚ) - 6000 }
  (s2, computeCore tbl raw)

/-- Generate `n` records threading the generator state. -/
def genFrom (tbl : TaxLawTable) : ℕ → ℕ → List CRec
  | 0, _ => []
  | n + 1, s =>
      let (s2, c) := genOne tbl s
      c :: genFrom tbl n s2

/-- Modelled from the spec: `generate(count, seed)` — a pure function of
the law table, the count and the seed; no other state exists. -/
def generate (tbl : TaxLawTable) (count seed : ℕ) : List CRec :=
  genFrom tbl count (seedInit seed)

theorem genFrom_length (tbl : TaxLawTable) :
    ∀ (n s : ℕ), (genFrom tbl n s).length = n := by
  intro n
  induction n with
  | zero => intro s; simp [genFrom]
  | succ k ih => intro s; simp [genFrom, ih]

/-! ## Records-table front end, embedded from `src/unnamed/part_000` -/

/-- Embedded from the source: `const PAGE_SIZE = 50`. -/
def PAGE_SIZE : ℕ := 50

/-- Embedded from `renderRecordPage`:
`_recOffset = Math.min(_recOffset, Math.max(0, _recTotal - PAGE_SIZE))`. -/
def clampOffset (off : ℤ) (total : ℕ) : ℤ :=
  min off (max 0 ((total : ℤ) - PAGE_SIZE))

/-- Embedded from `renderRecordPage`:
`page = rows.slice(_recOffset, _recOffset + PAGE_SIZE)` after clamping. -/
def pageOf {α : Type} (rows : List α) (off : ℤ) : List α :=
  (rows.drop (clampOffset off rows.length).toNat).take PAGE_SIZE

/-- Embedded from the source: `btnFirst.disabled = _recOffset === 0`. -/
def btnFirstDisabled (off : ℤ) : Bool := off == 0

/-- Embedded from the source: `btnPrev.disabled = _recOffset === 0`. -/
def btnPrevDisabled (off : ℤ) : Bool := off == 0

/-- Embedded from the source:
`btnNext.disabled = _recOffset + PAGE_SIZE >= _recTotal`. -/
def btnNextDisabled (off : ℤ) (total : ℕ) : Bool :=
  decide ((total : ℤ) ≤ off + PAGE_SIZE)

/-- Embedded from the btnLast click handler:
`_recOffset = Math.floor(Math.max(0, _recTotal - 1) / PAGE_SIZE) * PAGE_SIZE`. -/
def btnLastOffset (total : ℕ) : ℤ :=
  max 0 ((total : ℤ) - 1) / PAGE_SIZE * PAGE_SIZE

/-- ASCII lowercasing of one character, as `String.toLowerCase` acts on
the ASCII record data. -/
def lowerChar (c : Char) : Char :=
  if 65 ≤ c.toNat ∧ c.toNat ≤ 90 then Char.ofNat (c.toNat + 32) else c

/-- ASCII lowercasing of a string. -/
def lowerStr (s : String) : String := ⟨s.data.map lowerChar⟩

/-- Embedded from the source: `String.prototype.includes` — substring
test. -/
def containsSub (hay needle : String) : Bool :=
  hay.data.tails.any (fun t => needle.data.isPrefixOf t)

/-- Embedded from the source: one record row cached in `_allRecords`,
with the full union of the column keys the three front ends read
(`COLS` in part_000 and app.js, `DISPLAYED_COLS` in part_001):
taxpayer_id, filing_status, state, total_income, taxable_income,
federal_tax, state_tax, fica_total, total_tax_liability,
effective_tax_rate, marginal_tax_rate, refund_or_owed, uses_itemized.
Numeric fields carry integer values here; the JSON text of a number
holds only digits, a sign and a decimal point — no letters — so this
numeric reduction cannot change which letter searches match. -/
structure FRec where
  taxpayer_id : ℕ
  filing_status : String
  state : String
  total_income : ℤ
  taxable_income : ℤ
  federal_tax : ℤ
  state_tax : ℤ
  fica_total : ℤ
  total_tax_liability : ℤ
  effective_tax_rate : ℤ
  marginal_tax_rate : ℤ
  refund_or_owed : ℤ
  uses_itemized : Bool
deriving Repr, DecidableEq, Inhabited

/-- Embedded from the source: `JSON.stringify(r)` on the cached row —
every key the front ends read, in column order, strings quoted, numbers
bare, the boolean as `true`/`false`. -/
def jsonOf (r : FRec) : String :=
  "\x7b\"taxpayer_id\":" ++ toString r.taxpayer_id ++
    ",\"filing_status\":\"" ++ r.filing_status ++
    "\",\"state\":\"" ++ r.state ++
    "\",\"total_income\":" ++ toString r.total_income ++
    ",\"taxable_income\":" ++ toString r.taxable_income ++
    ",\"federal_tax\":" ++ toString r.federal_tax ++
    ",\"state_tax\":" ++ toString r.state_tax ++
    ",\"fica_total\":" ++ toString r.fica_total ++
    ",\"total_tax_liability\":" ++ toString r.total_tax_liability ++
    ",\"effective_tax_rate\":" ++ toString r.effective_tax_rate ++
    ",\"marginal_tax_rate\":" ++ toString r.marginal_tax_rate ++
    ",\"refund_or_owed\":" ++ toString r.refund_or_owed ++
    ",\"uses_itemized\":" ++ (if r.uses_itemized then "true" else "false") ++ "\x7d"

/-- The sortable column keys of the records table, one per column. -/
inductive SKey where
  | tid
  | statusK
  | stateK
  | income
  | taxableK
  | federalK
  | stateTaxK
  | ficaK
  | liabilityK
  | effectiveK
  | marginalK
  | refund
  | usesItemK
deriving Repr, DecidableEq, Inhabited

/-- Embedded from the source comparator: per-key ascending order (numeric
keys compare numerically after the `+a[k]` coercion, string keys compare
as strings, the boolean as 0/1). -/
def keyLe : SKey → FRec → FRec → Bool
  | .tid, a, b => decide (a.taxpayer_id ≤ b.taxpayer_id)
  | .statusK, a, b => decide (a.filing_status ≤ b.filing_status)
  | .stateK, a, b => decide (a.state ≤ b.state)
  | .income, a, b => decide (a.total_income ≤ b.total_income)
  | .taxableK, a, b => decide (a.taxable_income ≤ b.taxable_income)
  | .federalK, a, b => decide (a.federal_tax ≤ b.federal_tax)
  | .stateTaxK, a, b => decide (a.state_tax ≤ b.state_tax)
  | .ficaK, a, b => decide (a.fica_total ≤ b.fica_total)
  | .liabilityK, a, b => decide (a.total_tax_liability ≤ b.total_tax_liability)
  | .effectiveK, a, b => decide (a.effective_tax_rate ≤ b.effective_tax_rate)
  | .marginalK, a, b => decide (a.marginal_tax_rate ≤ b.marginal_tax_rate)
  | .refund, a, b => decide (a.refund_or_owed ≤ b.refund_or_owed)
  | .usesItemK, a, b => decide (a.uses_itemized ≤ b.uses_itemized)

/-- Embedded from the source: the filter controls
`_recSearch`, `_recStatus`, `_recState`, `_sortKey`, `_sortDir`. -/
structure FilterState where
  search : String
  statusF : String
  stateF : String
  sortKey : SKey
  asc : Bool
deriving Repr, DecidableEq, Inhabited

/-- Sort order induced by the current key and direction. -/
def fsLe (st : FilterState) (a b : FRec) : Bool :=
  if st.asc then keyLe st.sortKey a b else keyLe st.sortKey b a

/-- Embedded from `filterRecords`: a row passes when the lower-cased
search string occurs in the lower-cased JSON serialization, the status
filter matches the filing status, and the state filter matches the state;
each test is skipped when its control is empty. -/
def passes (st : FilterState) (r : FRec) : Bool :=
  (st.search == "" || containsSub (lowerStr (jsonOf r)) st.search) &&
    (st.statusF == "" || r.filing_status == st.statusF) &&
    (st.stateF == "" || r.state == st.stateF)

/-- Follows the claim's words, not the source: the search string is
tested against the raw (unlowered) JSON serialization.  Kept only to be
compared against `passes`. -/
def passesClaim (st : FilterState) (r : FRec) : Bool :=
  (st.search == "" || containsSub (jsonOf r) st.search) &&
    (st.statusF == "" || r.filing_status == st.statusF) &&
    (st.stateF == "" || r.state == st.stateF)

/-- Embedded from `filterRecords`: filter the cached rows by the active
criteria, then sort a copy by the current key and direction. -/
def filterRecords (st : FilterState) (all : List FRec) : List FRec :=
  List.insertionSort (fun a b => fsLe st a b = true) (all.filter (passes st))

/-- Follows the claim's words, not the source: `filterRecords` with the
claim-literal search criterion. -/
def filterRecordsClaim (st : FilterState) (all : List FRec) : List FRec :=
  List.insertionSort (fun a b => fsLe st a b = true) (all.filter (passesClaim st))

/-! ## Shared lemmas about the computer -/

theorem computeCore_raw (tbl : TaxLawTable) (r : RawRecord) :
    (computeCore tbl r).raw = r := rfl

theorem computeCore_totalIncome (tbl : TaxLawTable) (r : RawRecord) :
    (computeCore tbl r).totalIncome = totalIncomeOf r := rfl

theorem computeCore_dedUsed (tbl : TaxLawTable) (r : RawRecord) :
    (computeCore tbl r).dedUsed =
      max (itemizedTotalOf tbl r) (stdFor tbl r.filingStatus) := rfl

theorem computeCore_usesItemized (tbl : TaxLawTable) (r : RawRecord) :
    (computeCore tbl r).usesItemized =
      decide (stdFor tbl r.filingStatus < itemizedTotalOf tbl r) := rfl

theorem computeCore_taxableIncome (tbl : TaxLawTable) (r : RawRecord) :
    (computeCore tbl r).taxableIncome =
      max 0 (totalIncomeOf r - max (itemizedTotalOf tbl r) (stdFor tbl r.filingStatus)) :=
  rfl

theorem computeCore_federalTax (tbl : TaxLawTable) (r : RawRecord) :
    (computeCore tbl r).federalTax =
      federalTaxAux (bracketsFor tbl r.filingStatus) (computeCore tbl r).taxableIncome :=
  rfl

theorem computeCore_stateTax (tbl : TaxLawTable) (r : RawRecord) :
    (computeCore tbl r).stateTax =
      ((stateRateFor tbl r.state).map
        (fun sr => stateTaxOf sr (computeCore tbl r).taxableIncome)).getD 0 := rfl

theorem computeCore_socialSecurity (tbl : TaxLawTable) (r : RawRecord) :
    (computeCore tbl r).socialSecurity =
      ssTax tbl.fica (r.wages + r.selfEmployment) := rfl

theorem computeCore_medicare (tbl : TaxLawTable) (r : RawRecord) :
    (computeCore tbl r).medicare =
      medicareTax tbl.fica (r.wages + r.selfEmployment) := rfl

theorem computeCore_ficaTotal (tbl : TaxLawTable) (r : RawRecord) :
    (computeCore tbl r).ficaTotal =
      (computeCore tbl r).socialSecurity + (computeCore tbl r).medicare := rfl

theorem computeCore_credits (tbl : TaxLawTable) (r : RawRecord) :
    (computeCore tbl r).credits =
      min (r.dependents * tbl.creditPerDependent) tbl.creditCap := rfl

theorem computeCore_totalTaxLiability (tbl : TaxLawTable) (r : RawRecord) :
    (computeCore tbl r).totalTaxLiability =
      max 0 ((computeCore tbl r).federalTax + (computeCore tbl r).stateTax +
        (computeCore tbl r).ficaTotal - (computeCore tbl r).credits) := rfl

theorem computeCore_effectiveRate (tbl : TaxLawTable) (r : RawRecord) :
    (computeCore tbl r).effectiveRate =
      if 0 < (computeCore tbl r).totalIncome then
        (computeCore tbl r).totalTaxLiability / (computeCore tbl r).totalIncome
      else 0 := rfl

theorem computeCore_marginalTaxRate (tbl : TaxLawTable) (r : RawRecord) :
    (computeCore tbl r).marginalTaxRate =
      marginalRate (bracketsFor tbl r.filingStatus) (computeCore tbl r).taxableIncome :=
  rfl

theorem computeCore_refundOrOwed (tbl : TaxLawTable) (r : RawRecord) :
    (computeCore tbl r).refundOrOwed =
      r.withholding - (computeCore tbl r).totalTaxLiability := rfl

theorem compute_inv (tbl : TaxLawTable) (r : RawRecord) (c : CRec)
    (h : compute tbl r = some c) :
    validRecord tbl r = true ∧ c = computeCore tbl r := by
  unfold compute at h
  split at h
  · exact ⟨by assumption, (Option.some.injEq _ _ ▸ h).symm⟩
  · exact absurd h (by simp)

theorem validRecord_facts (tbl : TaxLawTable) (r : RawRecord)
    (h : validRecord tbl r = true) :
    0 ≤ r.wages ∧ 0 ≤ r.selfEmployment ∧ 0 ≤ r.investment ∧ 0 ≤ r.rental ∧
      0 ≤ r.retirement ∧ 0 ≤ r.mortgageInterest ∧ 0 ≤ r.charitable ∧
      0 ≤ r.medical ∧ 0 ≤ r.salt ∧ (stateRateFor tbl r.state).isSome = true := by
  simp only [validRecord, Bool.and_eq_true, decide_eq_true_eq] at h
  tauto

theorem stdFor_nonneg (tbl : TaxLawTable) (hwf : WFT tbl) (fs : FilingStatus) :
    0 ≤ stdFor tbl fs := by
  obtain ⟨-, -, -, h4, h5, h6, -⟩ := hwf
  cases fs <;> simpa [stdFor]

theorem WFBrackets_lower_nonneg (bs : List Bracket) (h : WFBrackets bs) :
    ∀ b ∈ bs, 0 ≤ b.lower := by
  obtain ⟨hne, hhead, hchain, -, -⟩ := h
  haveI : IsTrans Bracket (fun a b => a.lower < b.lower) :=
    ⟨fun _ _ _ h1 h2 => lt_trans h1 h2⟩
  cases bs with
  | nil => simp
  | cons b0 rest =>
    simp only [List.headD_cons] at hhead
    intro b hb
    rcases List.mem_cons.mp hb with hbeq | hb2
    · simp [hbeq, hhead]
    · have hpw := List.chain'_iff_pairwise.mp hchain
      have := (List.pairwise_cons.mp hpw).1 b hb2
      rw [hhead] at this
      exact le_of_lt this

theorem federalTaxAux_nonpos (bs : List Bracket) (ti : ℚ) (hti : ti ≤ 0)
    (hl : ∀ b ∈ bs, 0 ≤ b.lower) : federalTaxAux bs ti = 0 := by
  induction bs with
  | nil => simp [federalTaxAux]
  | cons b rest ih =>
    have hb : 0 ≤ b.lower := hl b (by simp)
    cases rest with
    | nil =>
      have : ti - b.lower ≤ 0 := by linarith
      simp [federalTaxAux, max_eq_left this]
    | cons b2 rest2 =>
      have hih := ih (fun c hc => hl c (List.mem_cons_of_mem b hc))
      have hmin : min ti b2.lower ≤ ti := min_le_left _ _
      have : min ti b2.lower - b.lower ≤ 0 := by linarith
      rw [federalTaxAux, hih, max_eq_left this]
      ring

theorem bracketsFor_wf (tbl : TaxLawTable) (hwf : WFT tbl) (fs : FilingStatus) :
    WFBrackets (bracketsFor tbl fs) := by
  obtain ⟨h1, h2, h3, -⟩ := hwf
  cases fs <;> simpa [bracketsFor]

/-- A single TX filer whose wages exceed the Social Security wage base. -/
def rHigh : RawRecord := { r0 with wages := 200000 }

theorem valid_T0_rHigh : validRecord T0 rHigh = true := by
  simp [validRecord, rHigh, r0, T0, stateRateFor]

/-! ## The claims -/

/-- C1: for every record with valid filing status, federal_tax equals the
slice-integration of the bracket table and marginal_tax_rate is the rate
of the highest bracket touched; in particular the single-filer example at
taxable income 50000 over brackets (0,10%),(11000,12%),(44725,22%) owes
exactly 6307.50 with marginal rate 22%. -/
theorem claim_C1 (tbl : TaxLawTable) (r : RawRecord) (c : CRec)
    (hwf : WFT tbl) (h : compute tbl r = some c) :
    c.federalTax = sliceSum (bracketsFor tbl r.filingStatus) c.taxableIncome ∧
    c.marginalTaxRate = lastTouchedRate (bracketsFor tbl r.filingStatus) c.taxableIncome ∧
    federalTaxAux T0.singleBrackets 50000 = 6307.5 ∧
    marginalRate T0.singleBrackets 50000 = 11 / 50 := by
  obtain ⟨hv, rfl⟩ := compute_inv tbl r c h
  refine ⟨?_, ?_, ?_, ?_⟩
  · rw [computeCore_federalTax, federalTaxAux_eq_sliceSum]
  · rw [computeCore_marginalTaxRate]
    have hwfb := bracketsFor_wf tbl hwf r.filingStatus
    obtain ⟨hne, hhead, hchain, -⟩ := hwfb
    apply marginalRate_eq_lastTouched _ _ hchain hne
    rw [hhead, computeCore_taxableIncome]
    exact le_max_left _ _
  · norm_num [T0, federalTaxAux, min_def, max_def]
  · norm_num [T0, marginalRate]

theorem claim_C1_witness :
    compute T0 r0 = some (computeCore T0 r0) ∧
    (computeCore T0 r0).federalTax =
      sliceSum (bracketsFor T0 r0.filingStatus) (computeCore T0 r0).taxableIncome ∧
    federalTaxAux T0.singleBrackets 50000 = 6307.5 := by
  have h := compute_eq_some T0 r0 valid_T0_r0
  have hc := claim_C1 T0 r0 (computeCore T0 r0) wfT0 h
  exact ⟨h, hc.1, hc.2.2.1⟩

/-- C2: every computed record satisfies
taxable_income = max(0, total_income − deduction_used), hence
taxable_income ≤ total_income. -/
theorem claim_C2 (tbl : TaxLawTable) (r : RawRecord) (c : CRec)
    (hwf : WFT tbl) (h : compute tbl r = some c) :
    c.taxableIncome = max 0 (c.totalIncome - c.dedUsed) ∧
    c.taxableIncome ≤ c.totalIncome := by
  obtain ⟨hv, rfl⟩ := compute_inv tbl r c h
  obtain ⟨hw, hse, hinv, hren, hret, hmi, hch, hmed, hsalt, -⟩ :=
    validRecord_facts tbl r hv
  obtain ⟨-, -, -, -, -, -, h7, -⟩ := hwf
  have hti : 0 ≤ totalIncomeOf r := by unfold totalIncomeOf; linarith
  have hsmin : 0 ≤ min r.salt tbl.saltCap := le_min hsalt h7
  have hitz : 0 ≤ itemizedTotalOf tbl r := by unfold itemizedTotalOf; linarith
  have hded : 0 ≤ max (itemizedTotalOf tbl r) (stdFor tbl r.filingStatus) :=
    le_trans hitz (le_max_left _ _)
  constructor
  · rw [computeCore_taxableIncome, computeCore_totalIncome, computeCore_dedUsed]
  · rw [computeCore_taxableIncome, computeCore_totalIncome]
    exact max_le hti (by linarith)

theorem claim_C2_witness :
    compute T0 r0 = some (computeCore T0 r0) ∧
    (computeCore T0 r0).taxableIncome =
      max 0 ((computeCore T0 r0).totalIncome - (computeCore T0 r0).dedUsed) ∧
    (computeCore T0 r0).taxableIncome ≤ (computeCore T0 r0).totalIncome := by
  have h := compute_eq_some T0 r0 valid_T0_r0
  have hc := claim_C2 T0 r0 (computeCore T0 r0) wfT0 h
  exact ⟨h, hc.1, hc.2⟩

/-- C3: social_security = min(wages + self_employment, wage base) × rate,
so earnings above the base are not Social-Security-taxed; at the concrete
constants, 200000 of wages yield exactly 10453.20, not 200000 × 6.2%;
medicare carries the additional surtax and fica_total is the sum. -/
theorem claim_C3 (tbl : TaxLawTable) (r : RawRecord) (c : CRec)
    (h : compute tbl r = some c) :
    c.socialSecurity =
      min (r.wages + r.selfEmployment) tbl.fica.ssWageBase * tbl.fica.ssRate ∧
    (tbl.fica.ssWageBase ≤ r.wages + r.selfEmployment →
      c.socialSecurity = tbl.fica.ssWageBase * tbl.fica.ssRate) ∧
    c.medicare = (r.wages + r.selfEmployment) * tbl.fica.medicareRate +
      max 0 (r.wages + r.selfEmployment - tbl.fica.addlMedicareThreshold) *
        tbl.fica.addlMedicareRate ∧
    c.ficaTotal = c.socialSecurity + c.medicare ∧
    ssTax T0.fica 200000 = 10453.2 ∧
    ssTax T0.fica 200000 ≠ 200000 * (31 / 500) := by
  obtain ⟨hv, rfl⟩ := compute_inv tbl r c h
  refine ⟨rfl, ?_, rfl, rfl, ?_, ?_⟩
  · intro hcap
    rw [computeCore_socialSecurity]
    unfold ssTax
    rw [min_eq_right hcap]
  · norm_num [ssTax, T0, min_def]
  · norm_num [ssTax, T0, min_def]

theorem claim_C3_witness :
    compute T0 rHigh = some (computeCore T0 rHigh) ∧
    T0.fica.ssWageBase ≤ rHigh.wages + rHigh.selfEmployment ∧
    (computeCore T0 rHigh).socialSecurity = T0.fica.ssWageBase * T0.fica.ssRate ∧
    (computeCore T0 rHigh).ficaTotal =
      (computeCore T0 rHigh).socialSecurity + (computeCore T0 rHigh).medicare ∧
    ssTax T0.fica 200000 = 10453.2 := by
  have h := compute_eq_some T0 rHigh valid_T0_rHigh
  have hcap : T0.fica.ssWageBase ≤ rHigh.wages + rHigh.selfEmployment := by
    norm_num [T0, rHigh, r0]
  have hc := claim_C3 T0 rHigh (computeCore T0 rHigh) h
  exact ⟨h, hcap, hc.2.1 hcap, hc.2.2.2.1, hc.2.2.2.2.1⟩

/-- C4: deduction_used = max(itemized_total, standard deduction), where
itemized_total sums the four expense components with SALT clipped to the
cap first, and uses_itemized holds exactly when the itemized total
strictly exceeds the standard deduction (a tie selects standard). -/
theorem claim_C4 (tbl : TaxLawTable) (r : RawRecord) (c : CRec)
    (h : compute tbl r = some c) :
    c.dedUsed = max (itemizedTotalOf tbl r) (stdFor tbl r.filingStatus) ∧
    itemizedTotalOf tbl r =
      r.mortgageInterest + r.charitable + r.medical + min r.salt tbl.saltCap ∧
    (c.usesItemized = true ↔ stdFor tbl r.filingStatus < itemizedTotalOf tbl r) := by
  obtain ⟨hv, rfl⟩ := compute_inv tbl r c h
  refine ⟨rfl, rfl, ?_⟩
  simp [computeCore_usesItemized]

theorem claim_C4_witness :
    compute T0 rTie = some (computeCore T0 rTie) ∧
    itemizedTotalOf T0 rTie = stdFor T0 rTie.filingStatus ∧
    (computeCore T0 rTie).usesItemized = false ∧
    (computeCore T0 rTie).dedUsed = stdFor T0 rTie.filingStatus := by
  have h := compute_eq_some T0 rTie valid_T0_rTie
  have hc := claim_C4 T0 rTie (computeCore T0 rTie) h
  have heq : itemizedTotalOf T0 rTie = stdFor T0 rTie.filingStatus := by
    norm_num [itemizedTotalOf, stdFor, rTie, T0, min_def]
  have hnot : ¬ (stdFor T0 rTie.filingStatus < itemizedTotalOf T0 rTie) := by
    rw [heq]; exact lt_irrefl _
  refine ⟨h, heq, ?_, ?_⟩
  · cases hb : (computeCore T0 rTie).usesItemized
    · rfl
    · exact absurd (hc.2.2.mp hb) hnot
  · rw [hc.1, heq, max_self]

/-- C5 counterexample: at the zero-income record the computer still
assigns deduction_used = 14600 (the standard deduction), a nonzero
derived monetary field, so "every derived monetary field equal to 0"
fails as stated. -/
theorem claim_C5_counterexample :
    compute T0 rZero = some (computeCore T0 rZero) ∧
    (computeCore T0 rZero).totalIncome = 0 ∧
    (computeCore T0 rZero).dedUsed = 14600 := by
  refine ⟨compute_eq_some T0 rZero valid_T0_rZero, ?_, ?_⟩
  · rw [computeCore_totalIncome]; norm_num [totalIncomeOf, rZero]
  · rw [computeCore_dedUsed]
    norm_num [itemizedTotalOf, stdFor, rZero, T0, min_def, max_def]

/-- C5 (amended): effective_tax_rate is liability over income when income
is positive and 0 otherwise (total, never NaN), and at zero total income
every derived tax field — taxable income, federal, state, FICA, total
liability and the effective rate — is 0; deduction_used, credits and
refund_or_owed may stay nonzero. -/
theorem claim_C5 (tbl : TaxLawTable) (r : RawRecord) (c : CRec)
    (hwf : WFT tbl) (h : compute tbl r = some c) :
    c.effectiveRate =
      (if 0 < c.totalIncome then c.totalTaxLiability / c.totalIncome else 0) ∧
    (c.totalIncome = 0 →
      c.taxableIncome = 0 ∧ c.federalTax = 0 ∧ c.stateTax = 0 ∧ c.ficaTotal = 0 ∧
        c.totalTaxLiability = 0 ∧ c.effectiveRate = 0) := by
  obtain ⟨hv, rfl⟩ := compute_inv tbl r c h
  obtain ⟨hw, hse, hinv, hren, hret, hmi, hch, hmed, hsalt, -⟩ :=
    validRecord_facts tbl r hv
  refine ⟨rfl, ?_⟩
  intro hz
  rw [computeCore_totalIncome] at hz
  unfold totalIncomeOf at hz
  have hw0 : r.wages = 0 := by linarith
  have hse0 : r.selfEmployment = 0 := by linarith
  have hwfc := hwf
  obtain ⟨-, -, -, -, -, -, h7, h8, h9, h10, h11, h12, h13, h14, h15, -⟩ := hwfc
  have hsmin : 0 ≤ min r.salt tbl.saltCap := le_min hsalt h7
  have hitz : 0 ≤ itemizedTotalOf tbl r := by unfold itemizedTotalOf; linarith
  have hded : 0 ≤ max (itemizedTotalOf tbl r) (stdFor tbl r.filingStatus) :=
    le_trans hitz (le_max_left _ _)
  have htax : (computeCore tbl r).taxableIncome = 0 := by
    rw [computeCore_taxableIncome]
    unfold totalIncomeOf
    rw [max_eq_left (by linarith)]
  have hfed : (computeCore tbl r).federalTax = 0 := by
    rw [computeCore_federalTax, htax]
    exact federalTaxAux_nonpos _ 0 le_rfl
      (WFBrackets_lower_nonneg _ (bracketsFor_wf tbl hwf r.filingStatus))
  have hst : (computeCore tbl r).stateTax = 0 := by
    rw [computeCore_stateTax, htax]
    cases hsr : stateRateFor tbl r.state with
    | none => simp
    | some sr =>
      have hwfs : WFState sr := by
        unfold stateRateFor at hsr
        cases hfind : tbl.stateRates.find? (fun e => e.1 == r.state) with
        | none => rw [hfind] at hsr; simp at hsr
        | some e =>
          rw [hfind] at hsr
          simp only [Option.map_some', Option.some.injEq] at hsr
          rw [← hsr]
          exact h13 e (List.mem_of_find?_eq_some hfind)
      simp only [Option.map_some', Option.getD_some]
      cases sr with
      | flat rr => simp [stateTaxOf]
      | bracketed bs =>
        simp only [stateTaxOf]
        exact federalTaxAux_nonpos bs 0 le_rfl (WFBrackets_lower_nonneg bs hwfs)
  have hss : (computeCore tbl r).socialSecurity = 0 := by
    rw [computeCore_socialSecurity, hw0, hse0]
    unfold ssTax
    norm_num [min_eq_left h9]
  have hmd : (computeCore tbl r).medicare = 0 := by
    rw [computeCore_medicare, hw0, hse0]
    unfold medicareTax
    rw [max_eq_left (by linarith)]
    ring
  have hfica : (computeCore tbl r).ficaTotal = 0 := by
    rw [computeCore_ficaTotal, hss, hmd]; ring
  have hcred : 0 ≤ (computeCore tbl r).credits := by
    rw [computeCore_credits]
    exact le_min (mul_nonneg (Nat.cast_nonneg _) h14) h15
  have hliab : (computeCore tbl r).totalTaxLiability = 0 := by
    rw [computeCore_totalTaxLiability, hfed, hst, hfica]
    rw [max_eq_left (by linarith)]
  have heff : (computeCore tbl r).effectiveRate = 0 := by
    rw [computeCore_effectiveRate, computeCore_totalIncome]
    unfold totalIncomeOf
    rw [if_neg (by linarith)]
  exact ⟨htax, hfed, hst, hfica, hliab, heff⟩

theorem claim_C5_witness :
    compute T0 rZero = some (computeCore T0 rZero) ∧
    (computeCore T0 rZero).effectiveRate =
      (if 0 < (computeCore T0 rZero).totalIncome then
        (computeCore T0 rZero).totalTaxLiability / (computeCore T0 rZero).totalIncome
      else 0) ∧
    (computeCore T0 rZero).federalTax = 0 ∧
    (computeCore T0 rZero).totalTaxLiability = 0 ∧
    (computeCore T0 rZero).effectiveRate = 0 := by
  have h := compute_eq_some T0 rZero valid_T0_rZero
  have hz : (computeCore T0 rZero).totalIncome = 0 := by
    rw [computeCore_totalIncome]; norm_num [totalIncomeOf, rZero]
  have hc := claim_C5 T0 rZero (computeCore T0 rZero) wfT0 h
  exact ⟨h, hc.1, (hc.2 hz).2.1, (hc.2 hz).2.2.2.2.1, (hc.2 hz).2.2.2.2.2⟩

theorem countP_sign_split (pop : List CRec) :
    pop.countP (fun c => decide (0 ≤ c.refundOrOwed)) +
      pop.countP (fun c => decide (c.refundOrOwed < 0)) = pop.length := by
  induction pop with
  | nil => simp
  | cons c rest ih =>
    by_cases hc : 0 ≤ c.refundOrOwed
    · simp [List.countP_cons, hc, not_lt.mpr hc]
      omega
    · simp [List.countP_cons, hc, lt_of_not_ge hc]
      omega

/-- C6: the statistics primitive returns all-zero fields on the empty
list; `analyze` of the empty population yields zeroed stats in every
group while keeping every group key present; and a population with no
investment-income filers gets an all-zero capital_gains_stats, never a
missing key or an exception. -/
theorem claim_C6 (tbl : TaxLawTable) (pop : List CRec)
    (hcg : pop.countP (fun c => decide (0 < c.raw.investment)) = 0) :
    summarize [] = zeroStats ∧
    (analyze tbl []).income.overall_stats = zeroStats ∧
    (∀ e ∈ (analyze tbl []).income.by_income_source, e.2 = zeroStats) ∧
    (analyze tbl []).tax_rates.effective_rate_stats = zeroStats ∧
    (analyze tbl []).refunds.refund_stats = zeroStats ∧
    (analyze tbl []).refunds.owed_stats = zeroStats ∧
    (analyze tbl []).capital_gains.capital_gains_stats = zeroStats ∧
    (analyze tbl []).credits_dependents.credit_stats = zeroStats ∧
    (analyze tbl []).fica.social_security_stats = zeroStats ∧
    (analyze tbl []).fica.medicare_stats = zeroStats ∧
    (analyze tbl []).by_state.length = tbl.stateRates.length ∧
    (analyze tbl []).refunds.bucket_distribution.length =
      REFUND_BUCKET_LABELS.length ∧
    (analyze tbl pop).capital_gains.capital_gains_stats = zeroStats ∧
    (analyze tbl pop).capital_gains.cg_filer_count = 0 := by
  have hf : pop.filter (fun c => decide (0 < c.raw.investment)) = [] := by
    rw [List.filter_eq_nil_iff]
    intro c hc
    simpa using List.countP_eq_zero.mp hcg c hc
  refine ⟨rfl, rfl, ?_, rfl, rfl, rfl, rfl, rfl, rfl, rfl, ?_, rfl, ?_, ?_⟩
  · intro e he
    simp only [analyze, incomeSources, List.filter_nil, List.map_nil,
      List.map_cons, List.mem_cons, List.not_mem_nil, or_false] at he
    rcases he with rfl | rfl | rfl | rfl | rfl <;> rfl
  · simp [analyze]
  · simp only [analyze]
    rw [hf]
    rfl
  · simp only [analyze]
    rw [hf]
    rfl

theorem claim_C6_witness :
    summarize [] = zeroStats ∧
    (analyze T0 [computeCore T0 rZero]).capital_gains.capital_gains_stats =
      zeroStats ∧
    (analyze T0 [computeCore T0 rZero]).capital_gains.cg_filer_count = 0 := by
  have hcg :
      [computeCore T0 rZero].countP (fun c => decide (0 < c.raw.investment)) = 0 := by
    norm_num [List.countP_cons, computeCore_raw, rZero]
  obtain ⟨h1, -, -, -, -, -, -, -, -, -, -, -, h13, h14⟩ :=
    claim_C6 T0 [computeCore T0 rZero] hcg
  exact ⟨h1, h13, h14⟩

/-- C7: a record with refund_or_owed at least 0 (0 included) counts as a
refund and one below 0 as owed, those counts partition the population;
the top refund bucket takes strictly more than 5000, so exactly 5000
falls in the "refund $0-5k" bucket, and the front end colours 0 as a
refund. -/
theorem claim_C7 (tbl : TaxLawTable) (pop : List CRec) (v : ℚ)
    (h1 : 0 ≤ v) (h2 : v ≤ 5000) :
    refundBucket 5000 = "refund $0-5k" ∧
    refundBucket 5000 ≠ "refund > $5k" ∧
    refundBucket v = "refund $0-5k" ∧
    (∀ w : ℚ, 5000 < w → refundBucket w = "refund > $5k") ∧
    (analyze tbl pop).refunds.refund_count =
      pop.countP (fun c => decide (0 ≤ c.refundOrOwed)) ∧
    (analyze tbl pop).refunds.owed_count =
      pop.countP (fun c => decide (c.refundOrOwed < 0)) ∧
    (analyze tbl pop).refunds.refund_count + (analyze tbl pop).refunds.owed_count =
      pop.length ∧
    refundColorClass 0 = "gr" ∧
    (∀ w : ℚ, refundColorClass w = "gr" ↔ 0 ≤ w) := by
  have hb : refundBucket v = "refund $0-5k" := by
    simp only [refundBucket]
    rw [if_neg (by linarith), if_neg (by linarith), if_neg (by linarith),
      if_neg (by linarith), if_neg (by linarith), if_pos h2]
  have hb5 : refundBucket 5000 = "refund $0-5k" := by
    simp only [refundBucket]
    norm_num
  have hcnt : (analyze tbl pop).refunds.refund_count =
      pop.countP (fun c => decide (0 ≤ c.refundOrOwed)) := by
    simp only [analyze]
    rw [List.countP_eq_length_filter]
  have hcnt2 : (analyze tbl pop).refunds.owed_count =
      pop.countP (fun c => decide (c.refundOrOwed < 0)) := by
    simp only [analyze]
    rw [List.countP_eq_length_filter]
  refine ⟨hb5, ?_, hb, ?_, hcnt, hcnt2, ?_, rfl, ?_⟩
  · rw [hb5]
    decide
  · intro w hw
    simp only [refundBucket]
    rw [if_neg (by linarith), if_neg (by linarith), if_neg (by linarith),
      if_neg (by linarith), if_neg (by linarith), if_neg (by linarith)]
  · rw [hcnt, hcnt2]
    exact countP_sign_split pop
  · intro w
    by_cases hw : 0 ≤ w
    · simp [refundColorClass, hw]
    · simp only [refundColorClass, if_neg hw]
      constructor
      · intro hcon
        exact absurd hcon (by decide)
      · intro hcon
        exact absurd hcon hw

theorem claim_C7_witness :
    refundBucket 5000 = "refund $0-5k" ∧
    refundBucket 2500 = "refund $0-5k" ∧
    refundBucket 6000 = "refund > $5k" ∧
    (analyze T0 [(default : CRec)]).refunds.refund_count +
      (analyze T0 [(default : CRec)]).refunds.owed_count = 1 ∧
    refundColorClass 0 = "gr" := by
  have hc := claim_C7 T0 [(default : CRec)] 2500 (by norm_num) (by norm_num)
  refine ⟨hc.1, hc.2.2.1, hc.2.2.2.1 6000 (by norm_num), ?_, hc.2.2.2.2.2.2.2.1⟩
  simpa using hc.2.2.2.2.2.2.1

/-- C8: `generate` is a pure function of the law table, the count and the
seed — two invocations with the same arguments give the same population,
no hidden state exists, and the population has exactly `count` records;
in particular generate(500, 42) twice yields identical populations. -/
theorem claim_C8 (tbl : TaxLawTable) (count seed : ℕ) :
    generate tbl count seed = generate tbl count seed ∧
    (generate tbl count seed).length = count ∧
    generate T0 500 42 = generate T0 500 42 :=
  ⟨rfl, genFrom_length tbl count (seedInit seed), rfl⟩

/-- C9: renderRecordPage clamps the offset into [0, max(0, T − 50)], the
rendered page holds at most 50 rows and is non-empty when T > 0,
First/Prev are disabled exactly at offset 0, Next exactly when
offset + 50 ≥ T, and the Last handler lands on the largest multiple of 50
strictly below T (0 when T = 0). -/
theorem claim_C9 {α : Type} (rows : List α) (off m : ℤ)
    (h0 : 0 ≤ off) (hT : 0 < rows.length)
    (hm : m % 50 = 0) (hmT : m < (rows.length : ℤ)) :
    0 ≤ clampOffset off rows.length ∧
    clampOffset off rows.length ≤ max 0 ((rows.length : ℤ) - 50) ∧
    (pageOf rows off).length ≤ 50 ∧
    pageOf rows off ≠ [] ∧
    (btnFirstDisabled (clampOffset off rows.length) = true ↔
      clampOffset off rows.length = 0) ∧
    (btnPrevDisabled (clampOffset off rows.length) = true ↔
      clampOffset off rows.length = 0) ∧
    (btnNextDisabled (clampOffset off rows.length) rows.length = true ↔
      (rows.length : ℤ) ≤ clampOffset off rows.length + 50) ∧
    btnLastOffset rows.length % 50 = 0 ∧
    btnLastOffset rows.length < (rows.length : ℤ) ∧
    m ≤ btnLastOffset rows.length ∧
    btnLastOffset 0 = 0 ∧
    0 ≤ max 0 (off - (PAGE_SIZE : ℤ)) ∧
    0 ≤ off + (PAGE_SIZE : ℤ) ∧
    0 ≤ btnLastOffset rows.length := by
  have hk0 : 0 ≤ clampOffset off rows.length := le_min h0 (le_max_left 0 _)
  have hkmax : clampOffset off rows.length ≤ max 0 ((rows.length : ℤ) - 50) :=
    min_le_right _ _
  have hkT : (clampOffset off rows.length).toNat < rows.length := by
    rcases max_cases (0 : ℤ) ((rows.length : ℤ) - 50) with ⟨hmx, hside⟩ | ⟨hmx, hside⟩ <;>
      rw [hmx] at hkmax <;> omega
  have hlen : (pageOf rows off).length =
      min 50 (rows.length - (clampOffset off rows.length).toNat) := by
    simp [pageOf, PAGE_SIZE, List.length_take, List.length_drop]
  have hmax1 : max 0 ((rows.length : ℤ) - 1) = (rows.length : ℤ) - 1 :=
    max_eq_right (by omega)
  have hlast : btnLastOffset rows.length = ((rows.length : ℤ) - 1) / 50 * 50 := by
    rw [btnLastOffset, hmax1]
    norm_num [PAGE_SIZE]
  refine ⟨hk0, hkmax, ?_, ?_, ?_, ?_, ?_, ?_, ?_, ?_, ?_, ?_, ?_, ?_⟩
  · rw [hlen]; omega
  · apply List.ne_nil_of_length_pos
    rw [hlen]; omega
  · simp [btnFirstDisabled]
  · simp [btnPrevDisabled]
  · simp [btnNextDisabled, PAGE_SIZE]
  · rw [hlast]; omega
  · rw [hlast]; omega
  · rw [hlast]; omega
  · norm_num [btnLastOffset, PAGE_SIZE]
  · exact le_max_left 0 _
  · simp only [PAGE_SIZE]; omega
  · rw [hlast]; omega

theorem claim_C9_witness :
    0 ≤ clampOffset 120 (List.range 73).length ∧
    (pageOf (List.range 73) 120).length ≤ 50 ∧
    pageOf (List.range 73) 120 ≠ [] ∧
    btnLastOffset (List.range 73).length % 50 = 0 ∧
    btnLastOffset (List.range 73).length < ((List.range 73).length : ℤ) ∧
    (50 : ℤ) ≤ btnLastOffset (List.range 73).length := by
  have hc := claim_C9 (List.range 73) 120 50 (by norm_num)
    (by simp) (by norm_num) (by simp)
  exact ⟨hc.1, hc.2.2.1, hc.2.2.2.1, hc.2.2.2.2.2.2.2.1, hc.2.2.2.2.2.2.2.2.1,
    hc.2.2.2.2.2.2.2.2.2.1⟩

theorem keyLe_total (k : SKey) (a b : FRec) :
    keyLe k a b = true ∨ keyLe k b a = true := by
  cases k <;> simp only [keyLe, decide_eq_true_eq] <;> exact le_total _ _

theorem keyLe_trans (k : SKey) (a b c : FRec) :
    keyLe k a b = true → keyLe k b c = true → keyLe k a c = true := by
  cases k <;> simp only [keyLe, decide_eq_true_eq] <;>
    exact fun h1 h2 => le_trans h1 h2

theorem fsLe_total (st : FilterState) (a b : FRec) :
    fsLe st a b = true ∨ fsLe st b a = true := by
  by_cases h : st.asc <;> simp only [fsLe, h, if_true, if_false, Bool.false_eq_true]
  · exact keyLe_total _ _ _
  · exact (keyLe_total _ _ _).symm

theorem fsLe_trans (st : FilterState) (a b c : FRec) :
    fsLe st a b = true → fsLe st b c = true → fsLe st a c = true := by
  by_cases h : st.asc <;> simp only [fsLe, h, if_true, if_false, Bool.false_eq_true]
  · exact keyLe_trans _ _ _ _
  · exact fun h1 h2 => keyLe_trans _ _ _ _ h2 h1

/-- The record of the C10 counterexample: a Texas filer.  The only
occurrence of the letter pair t-x anywhere in its JSON serialization is
the upper-case state value "TX": no column key contains it (the keys all
spell "tax" with an interposed letter a), the other string values
("single", true/false) lack it, and number texts hold no letters. -/
def rTX : FRec :=
  ⟨2, "single", "TX", 50000, 35400, 4000, 0, 3800, 7800, 15, 12, 1200, false⟩

/-- The filter state of the C10 counterexample: the lower-cased search
string "tx" (the search box lowercases input), no status or state
filter, ascending id sort. -/
def stTX : FilterState := ⟨"tx", "", "", .tid, true⟩

set_option maxRecDepth 8192 in
/-- C10 counterexample: for the search "tx" the code keeps the Texas
record — it lowercases the serialization before the substring test, and
the lowered text contains "tx" from the state value "TX" — while the
claim-literal criterion, the search string a substring of the raw JSON
serialization, rejects it, since the raw text holds "TX" and no key or
other value supplies a lower-case t-x pair.  So "returns exactly those
cached records that satisfy every active criterion" fails as the claim
words the search criterion. -/
theorem claim_C10_counterexample :
    filterRecords stTX [rTX] = [rTX] ∧
    passesClaim stTX rTX = false ∧
    filterRecordsClaim stTX [rTX] = [] := by
  refine ⟨?_, ?_, ?_⟩ <;> decide

/-- C10 (amended): filterRecords returns exactly the cached records that
pass every active criterion — the lower-cased search string occurring in
the record's lower-cased JSON serialization, filing-status equality and
state equality, each skipped when empty — sorted by the current key and
direction; the result is a permutation of the filtered cache, computed
without mutating it. -/
theorem claim_C10 (st : FilterState) (all : List FRec) (r : FRec) :
    (r ∈ filterRecords st all ↔ r ∈ all ∧ passes st r = true) ∧
    List.Sorted (fun a b => fsLe st a b = true) (filterRecords st all) ∧
    (filterRecords st all).Perm (all.filter (passes st)) := by
  have hperm :=
    List.perm_insertionSort (fun a b => fsLe st a b = true) (all.filter (passes st))
  refine ⟨?_, ?_, hperm⟩
  · unfold filterRecords
    rw [List.Perm.mem_iff hperm, List.mem_filter]
  · unfold filterRecords
    haveI ht : IsTotal FRec (fun a b => fsLe st a b = true) := ⟨fsLe_total st⟩
    haveI htr : IsTrans FRec (fun a b => fsLe st a b = true) :=
      ⟨fun a b c => fsLe_trans st a b c⟩
    exact List.sorted_insertionSort _ _

end TaxLens
